import Mathlib

/-!
Shallow embedding of `newrelic_lambda_cli/cli/integrations.py`: the three
lifecycle workflows `install`, `uninstall` and `update` of the New Relic AWS
Lambda integration CLI.

Each workflow is modelled as a pure function from its command-line
configuration and an environment (the outcomes the external collaborators —
AWS resource operations, the New Relic GraphQL API, the interactive
confirmation prompts — would return) to the trace of external calls the
workflow makes, in order, together with the workflow's terminal result.

External calls are recorded as payload-free `Event`s named after the Python
functions the CLI invokes; the internals of those collaborators are out of
scope (the spec treats them as external), so only their returned
success/failure values, carried by the environment, matter here.  Exceptional
terminations (`AuthenticationError` from credential validation, the advisory
permission pre-check raising, `click.confirm(abort=True)` declining,
`failure(exit=True)`) are modelled as distinct terminal results.
-/

namespace NewRelicLambdaCli

/-- One external call or interactive prompt of the CLI, named after the
Python function invoked in `cli/integrations.py`. -/
inductive Event where
  | ensure_install_permissions
  | ensure_uninstall_permissions
  | validate_gql_credentials
  | retrieve_license_key
  | get_aws_account_id
  | validate_linked_account
  | create_integration_role
  | install_license_key
  | create_integration_account
  | enable_lambda_integration
  | install_log_ingestion
  | remove_integration_role
  | remove_log_ingestion_function
  | remove_license_key
  | update_log_ingestion
  | auto_install_license_key
  | confirm_integration_role_prompt
  | confirm_log_ingestion_prompt
  | confirm_license_key_prompt
  deriving DecidableEq, Repr

/-- Python truthiness of the optional `--linked-account-name` value:
`not linked_account_name` is true when the option is absent or empty. -/
def falsy_name : Option String → Bool
  | none => true
  | some s => s.isEmpty

/-- Python truthiness of the optional integer `--nr-account-id` value:
`if nr_account_id` is false when the option is absent or zero. -/
def truthy_id : Option Int → Bool
  | none => false
  | some n => n != 0

/-- The control-flow-relevant options of the `install` command.  The
pass-through options (`aws_role_policy`, `enable_logs`, `memory_size`,
`nr_account_id`, `timeout`, `role_name`, `integration_arn`, `tags`,
verbosity) are forwarded verbatim to the external calls and do not alter
which calls happen or the aggregated result, so they are not carried. -/
structure InstallConfig where
  aws_permissions_check : Bool
  linked_account_name : Option String
  enable_license_key_secret : Bool
  deriving Repr

/-- Outcomes of the external calls an `install` run can make.
`install_license_key_result` is what `integrations.install_license_key`
returns; the Python code discards that return value. -/
structure InstallEnv where
  permissions_ok : Bool
  credentials_valid : Bool
  create_integration_role_result : Option String
  install_license_key_result : Bool
  create_integration_account_result : Bool
  enable_lambda_integration_result : Bool
  install_log_ingestion_result : Bool
  deriving Repr

/-- Terminal result of an `install` run: the advisory permission pre-check
raised, `validate_gql_credentials` raised `AuthenticationError`, `done`
reported "Install Complete", or `failure(exit=True)` reported
"Install Incomplete". -/
inductive InstallResult where
  | permission_error
  | auth_error
  | completed
  | incomplete
  deriving DecidableEq, Repr

/-- The `install` command body (`cli/integrations.py`, `install`): boto3
session; optional permission pre-check; credential validation (raises on
invalid credentials); license-key retrieval; linked-account-name resolution
via `get_aws_account_id` when the name is falsy; pre-existing-link check;
role creation; secret creation when enabled (result discarded); when a role
is available, link creation and feature-flag enablement, each folded into
`install_success` by `res and install_success`; log-ingestion-function
creation folded the same way; `done` on success else `failure(exit=True)`. -/
def install (cfg : InstallConfig) (env : InstallEnv) :
    List Event × InstallResult :=
  if cfg.aws_permissions_check && !env.permissions_ok then
    ([Event.ensure_install_permissions], InstallResult.permission_error)
  else
  let t0 : List Event :=
    if cfg.aws_permissions_check then [Event.ensure_install_permissions]
    else []
  if !env.credentials_valid then
    (t0 ++ [Event.validate_gql_credentials], InstallResult.auth_error)
  else
  let t1 := t0 ++ [Event.validate_gql_credentials, Event.retrieve_license_key]
  let t2 := t1 ++
    (if falsy_name cfg.linked_account_name then [Event.get_aws_account_id]
     else [])
  let t3 := t2 ++ [Event.validate_linked_account, Event.create_integration_role]
  let t4 := t3 ++
    (if cfg.enable_license_key_secret then [Event.install_license_key] else [])
  let s0 := true
  let t5 :=
    match env.create_integration_role_result with
    | some _ =>
        t4 ++ [Event.create_integration_account, Event.enable_lambda_integration]
    | none => t4
  let s1 :=
    match env.create_integration_role_result with
    | some _ =>
        env.enable_lambda_integration_result &&
          (env.create_integration_account_result && s0)
    | none => s0
  let t6 := t5 ++ [Event.install_log_ingestion]
  let s2 := env.install_log_ingestion_result && s1
  if s2 then (t6, InstallResult.completed)
  else (t6, InstallResult.incomplete)

/-- The control-flow-relevant options of the `uninstall` command. -/
structure UninstallConfig where
  aws_permissions_check : Bool
  nr_account_id : Option Int
  force : Bool
  deriving Repr

/-- Outcomes of the external interactions an `uninstall` run can make: the
advisory permission pre-check and the three interactive confirmations. -/
structure UninstallEnv where
  permissions_ok : Bool
  confirm_integration_role : Bool
  confirm_log_ingestion : Bool
  confirm_license_key : Bool
  deriving Repr

/-- Terminal result of an `uninstall` run: the permission pre-check raised,
one of the two `click.confirm(..., abort=True)` prompts was declined
(aborting the workflow), or `done` reported "Uninstall Complete". -/
inductive UninstallResult where
  | permission_error
  | aborted_log_ingestion_prompt
  | aborted_license_key_prompt
  | completed
  deriving DecidableEq, Repr

/-- The `uninstall` command body (`cli/integrations.py`, `uninstall`):
optional permission pre-check; `uninstall_integration = True`, overwritten
by a (non-aborting) confirmation when not forced and an account id is
truthy; role removal when `uninstall_integration and nr_account_id`; then an
aborting confirmation (unless forced) before the log-ingestion-function
removal; then an aborting confirmation (unless forced) before the
license-key-secret removal; finally `done`. -/
def uninstall (cfg : UninstallConfig) (env : UninstallEnv) :
    List Event × UninstallResult :=
  if cfg.aws_permissions_check && !env.permissions_ok then
    ([Event.ensure_uninstall_permissions], UninstallResult.permission_error)
  else
  let t0 : List Event :=
    if cfg.aws_permissions_check then [Event.ensure_uninstall_permissions]
    else []
  let t1 :=
    if !cfg.force && truthy_id cfg.nr_account_id then
      t0 ++ [Event.confirm_integration_role_prompt]
    else t0
  let uninstall_integration :=
    if !cfg.force && truthy_id cfg.nr_account_id then
      env.confirm_integration_role
    else true
  let t2 :=
    if uninstall_integration && truthy_id cfg.nr_account_id then
      t1 ++ [Event.remove_integration_role]
    else t1
  if !cfg.force && !env.confirm_log_ingestion then
    (t2 ++ [Event.confirm_log_ingestion_prompt],
     UninstallResult.aborted_log_ingestion_prompt)
  else
  let t3 := t2 ++
    (if !cfg.force then [Event.confirm_log_ingestion_prompt] else [])
  let t4 := t3 ++ [Event.remove_log_ingestion_function]
  if !cfg.force && !env.confirm_license_key then
    (t4 ++ [Event.confirm_license_key_prompt],
     UninstallResult.aborted_license_key_prompt)
  else
  let t5 := t4 ++
    (if !cfg.force then [Event.confirm_license_key_prompt] else [])
  let t6 := t5 ++ [Event.remove_license_key]
  (t6, UninstallResult.completed)

/-- The control-flow-relevant options of the `update` command.  The
pass-through options (`enable_logs`, `memory_size`, `timeout`, `role_name`,
`tags`) are forwarded verbatim to `update_log_ingestion` and do not alter
which calls happen or the aggregated result. -/
structure UpdateConfig where
  aws_permissions_check : Bool
  enable_license_key_secret : Bool
  deriving Repr

/-- Outcomes of the external calls an `update` run can make.
`remove_license_key_result` is what `integrations.remove_license_key`
returns; the Python code discards that return value. -/
structure UpdateEnv where
  permissions_ok : Bool
  update_log_ingestion_result : Bool
  auto_install_license_key_result : Bool
  remove_license_key_result : Bool
  deriving Repr

/-- Terminal result of an `update` run. -/
inductive UpdateResult where
  | permission_error
  | completed
  | incomplete
  deriving DecidableEq, Repr

/-- The `update` command body (`cli/integrations.py`, `update`): optional
permission pre-check; `update_log_ingestion` folded into `update_success`
by `res and update_success`; then, when the secret feature is enabled,
`update_success = update_success and auto_install_license_key(...)` — a
Python `and`, which short-circuits: the `auto_install_license_key` call is
made only when `update_success` is still truthy — and when disabled,
`remove_license_key` is called with its result discarded; `done` on success
else `failure(exit=True)`. -/
def update (cfg : UpdateConfig) (env : UpdateEnv) :
    List Event × UpdateResult :=
  if cfg.aws_permissions_check && !env.permissions_ok then
    ([Event.ensure_install_permissions], UpdateResult.permission_error)
  else
  let t0 : List Event :=
    if cfg.aws_permissions_check then [Event.ensure_install_permissions]
    else []
  let t1 := t0 ++ [Event.update_log_ingestion]
  let s1 := env.update_log_ingestion_result && true
  let t2 :=
    if cfg.enable_license_key_secret then
      if s1 then t1 ++ [Event.auto_install_license_key] else t1
    else t1 ++ [Event.remove_license_key]
  let s2 :=
    if cfg.enable_license_key_secret then
      if s1 then env.auto_install_license_key_result else s1
    else s1
  if s2 then (t2, UpdateResult.completed)
  else (t2, UpdateResult.incomplete)

end NewRelicLambdaCli

namespace NewRelicLambdaCli

/-! ## Success predicates

Two aggregate-success definitions for `install`: the one the spec's
aggregation sentence describes (the AND over every attempted step, secret
step included) and the one the code computes (the secret step's return
value is discarded on line 139 of `cli/integrations.py`, so it never
reaches `install_success`). -/

/-- Overall install success as the aggregation sentence of the spec states
it: the AND of every attempted step — the license-key-secret creation when
the secret feature is enabled, the linked-account creation and feature-flag
enablement when a role is available, and the log-ingestion-function
creation.  Stated from the spec's words, for comparison with `install`. -/
def claimed_install_success (cfg : InstallConfig) (env : InstallEnv) : Bool :=
  (!cfg.enable_license_key_secret || env.install_license_key_result) &&
  ((match env.create_integration_role_result with
    | some _ =>
        env.create_integration_account_result &&
          env.enable_lambda_integration_result
    | none => true) &&
   env.install_log_ingestion_result)

/-- Overall install success as the code aggregates it: the AND of the
linked-account creation and feature-flag enablement (when a role is
available) and the log-ingestion-function creation.  The secret step's
return value is discarded by the code and therefore absent here. -/
def counted_install_success (env : InstallEnv) : Bool :=
  (match env.create_integration_role_result with
   | some _ =>
       env.create_integration_account_result &&
         env.enable_lambda_integration_result
   | none => true) &&
  env.install_log_ingestion_result

/-- Events an `update` run may emit: the advisory permission pre-check, the
two license-key-secret calls and the log-ingestion-function update. -/
def update_touches : Event → Bool
  | Event.ensure_install_permissions => true
  | Event.update_log_ingestion => true
  | Event.auto_install_license_key => true
  | Event.remove_license_key => true
  | _ => false

end NewRelicLambdaCli

namespace NewRelicLambdaCli

/-- Checks that event `a` occurs strictly before any occurrence of event `b`
in a trace: walking the trace left to right, an `a` is met before the first
`b` (vacuously true when no `b` occurs). -/
def before_any (a b : Event) : List Event → Bool
  | [] => true
  | e :: t => if e = b then false else if e = a then true else before_any a b t

/-- Install run for C1: secret feature enabled, no permission pre-check. -/
def c1cfg : InstallConfig := ⟨false, none, true⟩

/-- Remote outcomes for C1's witness: the secret step and the linked-account
creation fail, everything else succeeds. -/
def c1env : InstallEnv := ⟨true, true, some "role-arn", false, false, true, true⟩

/-- Uninstall run for C3's witness: forced, account id 7 supplied. -/
def c3cfg : UninstallConfig := ⟨false, some 7, true⟩

/-- Prompt answers for C3's witness (never consulted when forced). -/
def c3env : UninstallEnv := ⟨true, true, false, true⟩

/-- Uninstall run for C4's witness: not forced, no account id. -/
def c4cfg : UninstallConfig := ⟨false, none, false⟩

/-- Prompt answers for C4's witness: the log-ingestion prompt is declined. -/
def c4env : UninstallEnv := ⟨true, true, false, true⟩

/-- Update run for C6's witness: secret feature disabled. -/
def c6cfg : UpdateConfig := ⟨false, false⟩

/-- Remote outcomes for C6's witness: the log-ingestion update fails. -/
def c6env : UpdateEnv := ⟨true, false, true, false⟩

/-- Install run for C7's witness: permission pre-check enabled and passing. -/
def c7cfg : InstallConfig := ⟨true, none, true⟩

/-- Remote outcomes for C7's witness: invalid New Relic credentials. -/
def c7env : InstallEnv := ⟨true, false, none, true, true, true, true⟩

/-- Install run for C8's witness: secret feature disabled, name supplied. -/
def c8cfg : InstallConfig := ⟨false, some "my-link", false⟩

/-- Remote outcomes for C8's witness: every step succeeds. -/
def c8env : InstallEnv := ⟨true, true, some "role-arn", true, true, true, true⟩

/-- Install run for C10's witness: secret feature enabled. -/
def c10cfg : InstallConfig := ⟨false, none, true⟩

/-- Remote outcomes for C10's witness: role creation yields no role and the
log-ingestion-function creation fails. -/
def c10env : InstallEnv := ⟨true, true, none, true, true, true, false⟩

end NewRelicLambdaCli

namespace NewRelicLambdaCli

/-- C1, refuted at a concrete run: the secret feature is enabled, the
license-key-secret step is attempted and returns failure, every other step
succeeds; the claimed aggregate (`claimed_install_success`, which counts
the secret step) is false, yet the install reports overall success, because
the code discards `install_license_key`'s return value. -/
theorem C1_counterexample :
    Event.install_license_key ∈
      (install ⟨false, none, true⟩
        ⟨true, true, some "role-arn", false, true, true, true⟩).1 ∧
    (⟨true, true, some "role-arn", false, true, true, true⟩ :
        InstallEnv).install_license_key_result = false ∧
    (install ⟨false, none, true⟩
        ⟨true, true, some "role-arn", false, true, true, true⟩).2 =
      InstallResult.completed ∧
    claimed_install_success ⟨false, none, true⟩
        ⟨true, true, some "role-arn", false, true, true, true⟩ = false := by
  decide

/-- C1 (amended): for every install run that passes the permission pre-check
and credential validation, the overall success reported at the end is true
iff every attempted step among the linked-account creation and feature-flag
enablement (when a role is available) and the log-ingestion-function
creation returned success (`counted_install_success`); the
license-key-secret step, though attempted whenever the feature is enabled,
does not count, its return value being discarded; a single failing counted
step makes overall success false while all other independent steps still
execute. -/
theorem C1_amended (cfg : InstallConfig) (env : InstallEnv)
    (hp : env.permissions_ok = true) (hc : env.credentials_valid = true) :
    ((install cfg env).2 = InstallResult.completed ↔
      counted_install_success env = true) ∧
    Event.install_log_ingestion ∈ (install cfg env).1 ∧
    (cfg.enable_license_key_secret = true →
      Event.install_license_key ∈ (install cfg env).1) ∧
    (env.create_integration_role_result.isSome = true →
      Event.create_integration_account ∈ (install cfg env).1 ∧
      Event.enable_lambda_integration ∈ (install cfg env).1) := by
  obtain ⟨pc, lan, sec⟩ := cfg
  obtain ⟨po, cv, role, ilk, cia, eli, ili⟩ := env
  subst hp
  subst hc
  cases pc <;> cases sec <;> cases cia <;> cases eli <;> cases ili <;>
    rcases role with _ | r <;> rcases lan with _ | s <;>
    simp [install, counted_install_success, falsy_name]

/-- C1 (amended) at the concrete run `c1cfg`, `c1env`: the linked-account
creation fails, so the reported result is not `completed`, while the secret
step, the feature-flag step and the ingestion step were all attempted. -/
theorem C1_amended_witness :
    ((install c1cfg c1env).2 = InstallResult.completed ↔
      counted_install_success c1env = true) ∧
    Event.install_log_ingestion ∈ (install c1cfg c1env).1 ∧
    (c1cfg.enable_license_key_secret = true →
      Event.install_license_key ∈ (install c1cfg c1env).1) ∧
    (c1env.create_integration_role_result.isSome = true →
      Event.create_integration_account ∈ (install c1cfg c1env).1 ∧
      Event.enable_lambda_integration ∈ (install c1cfg c1env).1) :=
  C1_amended c1cfg c1env rfl rfl

/-- C2, evaluated on the code at its failing input: the secret feature is
enabled and the log-ingestion update returns failure; the Python
`update_success = update_success and auto_install_license_key(...)`
short-circuits, so the license-key-secret auto-install call is never made,
although the claim (and the spec's best-effort policy) says both
independent steps are attempted regardless of earlier outcomes. -/
theorem C2_code_behavior :
    Event.update_log_ingestion ∈
      (update ⟨false, true⟩ ⟨true, false, true, true⟩).1 ∧
    Event.auto_install_license_key ∉
      (update ⟨false, true⟩ ⟨true, false, true, true⟩).1 ∧
    (update ⟨false, true⟩ ⟨true, false, true, true⟩).2 =
      UpdateResult.incomplete := by
  decide

/-- C3, refuted at a concrete run: with force=true but no account id
supplied, the integration-role removal is skipped (the code guards it with
`uninstall_integration and nr_account_id`), so not all three removal steps
are attempted regardless of the other inputs. -/
theorem C3_counterexample :
    Event.remove_integration_role ∉
      (uninstall ⟨false, none, true⟩ ⟨true, true, true, true⟩).1 ∧
    (uninstall ⟨false, none, true⟩ ⟨true, true, true, true⟩).2 =
      UninstallResult.completed := by
  decide

/-- C3 (amended): for every uninstall run with force=true that passes the
permission pre-check, no confirmation prompt is issued, the
log-ingestion-function removal and the license-key-secret removal are both
attempted regardless of intermediate outcomes, the workflow completes, and
the integration-role removal is attempted iff a non-zero account id was
supplied. -/
theorem C3_amended (cfg : UninstallConfig) (env : UninstallEnv)
    (hf : cfg.force = true) (hp : env.permissions_ok = true) :
    Event.confirm_integration_role_prompt ∉ (uninstall cfg env).1 ∧
    Event.confirm_log_ingestion_prompt ∉ (uninstall cfg env).1 ∧
    Event.confirm_license_key_prompt ∉ (uninstall cfg env).1 ∧
    Event.remove_log_ingestion_function ∈ (uninstall cfg env).1 ∧
    Event.remove_license_key ∈ (uninstall cfg env).1 ∧
    (Event.remove_integration_role ∈ (uninstall cfg env).1 ↔
      truthy_id cfg.nr_account_id = true) ∧
    (uninstall cfg env).2 = UninstallResult.completed := by
  obtain ⟨pc, aid, f⟩ := cfg
  obtain ⟨po, ci, cl, ck⟩ := env
  subst hf
  subst hp
  cases pc <;>
    rcases aid with _ | n <;>
    first
      | (simp [uninstall, truthy_id]; done)
      | (cases hn : n != 0 <;> simp [uninstall, truthy_id, hn])

/-- C3 (amended) at the concrete run `c3cfg`, `c3env`: forced uninstall with
account id 7; all three removals happen and no prompt is issued. -/
theorem C3_amended_witness :
    Event.confirm_integration_role_prompt ∉ (uninstall c3cfg c3env).1 ∧
    Event.confirm_log_ingestion_prompt ∉ (uninstall c3cfg c3env).1 ∧
    Event.confirm_license_key_prompt ∉ (uninstall c3cfg c3env).1 ∧
    Event.remove_log_ingestion_function ∈ (uninstall c3cfg c3env).1 ∧
    Event.remove_license_key ∈ (uninstall c3cfg c3env).1 ∧
    (Event.remove_integration_role ∈ (uninstall c3cfg c3env).1 ↔
      truthy_id c3cfg.nr_account_id = true) ∧
    (uninstall c3cfg c3env).2 = UninstallResult.completed :=
  C3_amended c3cfg c3env rfl rfl

end NewRelicLambdaCli

namespace NewRelicLambdaCli

/-- C4: for every uninstall run without force that passes the permission
pre-check, declining either destructive-tier confirmation aborts the
workflow immediately: declining the log-ingestion-function prompt means
neither the function removal nor the secret removal happens; declining the
license-key-secret prompt (after accepting the first) means the secret
removal does not happen; in both cases the completion report
(`UninstallResult.completed`, the `done("Uninstall Complete")` of the code)
is not emitted. -/
theorem C4_abort_on_decline (cfg : UninstallConfig) (env : UninstallEnv)
    (hf : cfg.force = false) (hp : env.permissions_ok = true) :
    (env.confirm_log_ingestion = false →
      (uninstall cfg env).2 = UninstallResult.aborted_log_ingestion_prompt ∧
      Event.remove_log_ingestion_function ∉ (uninstall cfg env).1 ∧
      Event.remove_license_key ∉ (uninstall cfg env).1 ∧
      (uninstall cfg env).2 ≠ UninstallResult.completed) ∧
    (env.confirm_log_ingestion = true → env.confirm_license_key = false →
      (uninstall cfg env).2 = UninstallResult.aborted_license_key_prompt ∧
      Event.remove_license_key ∉ (uninstall cfg env).1 ∧
      (uninstall cfg env).2 ≠ UninstallResult.completed) := by
  obtain ⟨pc, aid, f⟩ := cfg
  obtain ⟨po, ci, cl, ck⟩ := env
  subst hf
  subst hp
  cases pc <;> cases ci <;> cases cl <;> cases ck <;>
    rcases aid with _ | n <;>
    first
      | (simp [uninstall, truthy_id]; done)
      | (cases hn : n != 0 <;> simp [uninstall, truthy_id, hn])

/-- C4 at the concrete run `c4cfg`, `c4env`: unforced uninstall, the
log-ingestion prompt is declined; the workflow aborts with no removal made
after the declined prompt and no completion report. -/
theorem C4_abort_on_decline_witness :
    (c4env.confirm_log_ingestion = false →
      (uninstall c4cfg c4env).2 = UninstallResult.aborted_log_ingestion_prompt ∧
      Event.remove_log_ingestion_function ∉ (uninstall c4cfg c4env).1 ∧
      Event.remove_license_key ∉ (uninstall c4cfg c4env).1 ∧
      (uninstall c4cfg c4env).2 ≠ UninstallResult.completed) ∧
    (c4env.confirm_log_ingestion = true → c4env.confirm_license_key = false →
      (uninstall c4cfg c4env).2 = UninstallResult.aborted_license_key_prompt ∧
      Event.remove_license_key ∉ (uninstall c4cfg c4env).1 ∧
      (uninstall c4cfg c4env).2 ≠ UninstallResult.completed) :=
  C4_abort_on_decline c4cfg c4env rfl rfl

/-- C5: for every install run, the `create_integration_role` call completes
— successfully or not — strictly before any `create_integration_account`
(link-creation) call in the trace, and the link creation is only attempted
when the role step yielded a role. -/
theorem C5_role_before_link (cfg : InstallConfig) (env : InstallEnv) :
    before_any Event.create_integration_role Event.create_integration_account
      (install cfg env).1 = true ∧
    (Event.create_integration_account ∈ (install cfg env).1 →
      env.create_integration_role_result.isSome = true) := by
  obtain ⟨pc, lan, sec⟩ := cfg
  obtain ⟨po, cv, role, ilk, cia, eli, ili⟩ := env
  cases pc <;> cases po <;> cases cv <;> cases sec <;>
    rcases role with _ | r <;> rcases lan with _ | s <;>
    first
      | (simp [install, before_any, falsy_name, apply_ite Prod.fst]; done)
      | (cases hs : s.isEmpty <;>
          simp [install, before_any, falsy_name, apply_ite Prod.fst, hs])

/-- C6, refuted at a concrete run: the secret feature is disabled, the
license-key-secret removal is attempted and returns failure, the
log-ingestion update succeeds; the update still reports overall success,
because the code discards `remove_license_key`'s return value, although the
claim says a failing attempted removal makes overall success false. -/
theorem C6_counterexample :
    Event.remove_license_key ∈
      (update ⟨false, false⟩ ⟨true, true, true, false⟩).1 ∧
    (⟨true, true, true, false⟩ : UpdateEnv).remove_license_key_result
      = false ∧
    (update ⟨false, false⟩ ⟨true, true, true, false⟩).2 =
      UpdateResult.completed := by
  decide

/-- C6 (amended): for every update run with the secret feature disabled that
passes the permission pre-check, the license-key-secret removal is
attempted, but its outcome is discarded and does not enter the aggregate:
overall update success equals the log-ingestion-function update outcome
alone. -/
theorem C6_amended (cfg : UpdateConfig) (env : UpdateEnv)
    (hp : env.permissions_ok = true)
    (hs : cfg.enable_license_key_secret = false) :
    Event.remove_license_key ∈ (update cfg env).1 ∧
    ((update cfg env).2 = UpdateResult.completed ↔
      env.update_log_ingestion_result = true) := by
  obtain ⟨pc, sec⟩ := cfg
  obtain ⟨po, uli, ail, rlk⟩ := env
  subst hp
  subst hs
  cases pc <;> cases uli <;> cases ail <;> cases rlk <;> decide

/-- C6 (amended) at the concrete run `c6cfg`, `c6env`: secret feature
disabled, ingestion update failing; the removal is attempted and the
reported result is not `completed`. -/
theorem C6_amended_witness :
    Event.remove_license_key ∈ (update c6cfg c6env).1 ∧
    ((update c6cfg c6env).2 = UpdateResult.completed ↔
      c6env.update_log_ingestion_result = true) :=
  C6_amended c6cfg c6env rfl rfl

end NewRelicLambdaCli

namespace NewRelicLambdaCli

/-- C7: for every install run that passes the permission pre-check but whose
New Relic credentials are invalid, the workflow terminates with
`AuthenticationError` and no cloud mutation happens: no role, secret,
linked-account, feature-flag or ingestion-function call appears in the
trace after the failed validation. -/
theorem C7_auth_fail_fast (cfg : InstallConfig) (env : InstallEnv)
    (hp : env.permissions_ok = true) (hc : env.credentials_valid = false) :
    (install cfg env).2 = InstallResult.auth_error ∧
    Event.create_integration_role ∉ (install cfg env).1 ∧
    Event.install_license_key ∉ (install cfg env).1 ∧
    Event.create_integration_account ∉ (install cfg env).1 ∧
    Event.enable_lambda_integration ∉ (install cfg env).1 ∧
    Event.install_log_ingestion ∉ (install cfg env).1 := by
  obtain ⟨pc, lan, sec⟩ := cfg
  obtain ⟨po, cv, role, ilk, cia, eli, ili⟩ := env
  subst hp
  subst hc
  cases pc <;> simp [install]

/-- C7 at the concrete run `c7cfg`, `c7env`: the permission pre-check passes,
the credentials are invalid; the run ends in `auth_error` with no mutating
call in the trace. -/
theorem C7_auth_fail_fast_witness :
    (install c7cfg c7env).2 = InstallResult.auth_error ∧
    Event.create_integration_role ∉ (install c7cfg c7env).1 ∧
    Event.install_license_key ∉ (install c7cfg c7env).1 ∧
    Event.create_integration_account ∉ (install c7cfg c7env).1 ∧
    Event.enable_lambda_integration ∉ (install c7cfg c7env).1 ∧
    Event.install_log_ingestion ∉ (install c7cfg c7env).1 :=
  C7_auth_fail_fast c7cfg c7env rfl rfl

/-- C8: for every install configuration with the license-key-secret feature
disabled, no `install_license_key` (LicenseKeySecret create/update) call
occurs anywhere in the install trace, whatever the other inputs and remote
outcomes are. -/
theorem C8_no_secret_call_when_disabled (cfg : InstallConfig)
    (env : InstallEnv) (h : cfg.enable_license_key_secret = false) :
    Event.install_license_key ∉ (install cfg env).1 := by
  obtain ⟨pc, lan, sec⟩ := cfg
  obtain ⟨po, cv, role, ilk, cia, eli, ili⟩ := env
  subst h
  cases pc <;> cases po <;> cases cv <;>
    rcases role with _ | r <;> rcases lan with _ | s <;>
    simp [install, falsy_name, apply_ite Prod.fst]

/-- C8 at the concrete run `c8cfg`, `c8env`: secret feature disabled,
everything else succeeding; the secret call is absent from the trace. -/
theorem C8_no_secret_call_when_disabled_witness :
    Event.install_license_key ∉ (install c8cfg c8env).1 :=
  C8_no_secret_call_when_disabled c8cfg c8env rfl

/-- C9: for every update run, under any input configuration and any remote
outcomes, no role-creation and no linked-account-creation call is issued,
and every event of the trace is among the permission pre-check, the
log-ingestion-function update and the two license-key-secret calls
(`update_touches`): update touches only the ingestion function and the
secret. -/
theorem C9_update_never_creates_role_or_link (cfg : UpdateConfig)
    (env : UpdateEnv) :
    Event.create_integration_role ∉ (update cfg env).1 ∧
    Event.create_integration_account ∉ (update cfg env).1 ∧
    (update cfg env).1.all update_touches = true := by
  obtain ⟨pc, sec⟩ := cfg
  obtain ⟨po, uli, ail, rlk⟩ := env
  cases pc <;> cases sec <;> cases po <;> cases uli <;> cases ail <;>
    cases rlk <;> decide

/-- C10: for every install run that passes the permission pre-check and
credential validation but whose role-creation step yields no role, the
linked-account creation and the feature-flag enablement are both skipped,
and the reported overall success equals the success of the
log-ingestion-function creation step alone. -/
theorem C10_no_role_skips_link (cfg : InstallConfig) (env : InstallEnv)
    (hp : env.permissions_ok = true) (hc : env.credentials_valid = true)
    (hr : env.create_integration_role_result = none) :
    Event.create_integration_account ∉ (install cfg env).1 ∧
    Event.enable_lambda_integration ∉ (install cfg env).1 ∧
    ((install cfg env).2 = InstallResult.completed ↔
      env.install_log_ingestion_result = true) := by
  obtain ⟨pc, lan, sec⟩ := cfg
  obtain ⟨po, cv, role, ilk, cia, eli, ili⟩ := env
  subst hp
  subst hc
  subst hr
  cases pc <;> cases sec <;> cases ili <;>
    rcases lan with _ | s <;>
    simp [install, falsy_name, apply_ite Prod.fst]

/-- C10 at the concrete run `c10cfg`, `c10env`: no role is produced and the
ingestion step fails; link and feature-flag calls are absent and the
reported result is not `completed`. -/
theorem C10_no_role_skips_link_witness :
    Event.create_integration_account ∉ (install c10cfg c10env).1 ∧
    Event.enable_lambda_integration ∉ (install c10cfg c10env).1 ∧
    ((install c10cfg c10env).2 = InstallResult.completed ↔
      c10env.install_log_ingestion_result = true) :=
  C10_no_role_skips_link c10cfg c10env rfl rfl rfl

end NewRelicLambdaCli
